import Mathlib

/-!
Verification of the pedalboard demo application (`app.py`).

The application is a single Streamlit script.  It is embedded shallowly:

* the audio buffer returned by `librosa.load` is a `List ℚ` of samples
  (mono floating-point samples at a fixed sample rate);
* the external pedalboard library is an opaque black box: its constructor
  defaults (`Compressor().threshold_db`, `Gain().gain_db`, ...) are a
  `PedalboardDefaults` record, and its render call `board(audio)` is an
  abstract function parameter;
* Python exceptions are modelled with `Except String`: any step that can
  raise (decoding the uploaded file, the external render call, NumPy
  producing non-finite values inside `_normalize_16_bit`) returns
  `Except` / `Option`, and `appMain` propagates errors by early return,
  exactly as an uncaught Python exception aborts the rest of the script;
* the Streamlit widgets are modelled by their returned values: a checkbox
  is a `Bool`, a slider returns a value within its declared range
  (`Option ℚ` in `UIState` is the user-moved position, `none` meaning the
  slider was left untouched so the declared default is returned);
* everything the script displays or exports (plots, audio players, the
  download button) is collected in an `AppOutput` record.
-/

/-- Sample values of an audio buffer, as returned by `librosa.load`. -/
abbrev AudioBuffer := List ℚ

/-- Constructor defaults of the external pedalboard library
(`Compressor().threshold_db`, `Compressor().ratio`, ..., `Gain().gain_db`,
`Reverb().room_size`, ...).  The library is not part of this repository and
is treated as an opaque black box, so the defaults are abstract fields. -/
structure PedalboardDefaults where
  compressor_threshold_db : ℚ
  compressor_ratio : ℚ
  compressor_attack_ms : ℚ
  compressor_release_ms : ℚ
  gain_db : ℚ
  reverb_room_size : ℚ
  reverb_damping : ℚ
  reverb_wet_level : ℚ
  reverb_dry_level : ℚ
  reverb_width : ℚ
  reverb_freeze_mode : ℚ
deriving DecidableEq

/-- An effect object appended to the board by `main`: only `Compressor`,
`Gain` and `Reverb` are ever constructed in `app.py`. -/
inductive Effect where
  | Compressor (threshold_db ratio attack_ms release_ms : ℚ)
  | Gain (gain_db : ℚ)
  | Reverb (room_size damping wet_level dry_level width freeze_mode : ℚ)
deriving DecidableEq

/-- The kind of an effect object, forgetting its parameters. -/
inductive EffectKind where
  | compressor
  | gain
  | reverb
deriving DecidableEq

/-- Map an effect object to its kind. -/
def Effect.kind : Effect → EffectKind
  | .Compressor _ _ _ _ => .compressor
  | .Gain _ => .gain
  | .Reverb _ _ _ _ _ _ => .reverb

/-- Number of effects of kind `k` in a chain. -/
def countKind (k : EffectKind) (l : List Effect) : ℕ :=
  (l.filter (fun e => decide (e.kind = k))).length

/-- The `Pedalboard([], sample_rate=sample_rate)` object: a sample rate and
an ordered list of effect plugins. -/
structure Pedalboard where
  sample_rate : ℕ
  effects : List Effect
deriving DecidableEq

/-- State of the eleven sidebar checkboxes (lines 52-62 of `app.py`) and of
the parameter sliders.  A slider field records the position the user moved
the slider to, `none` meaning the slider is untouched and shows its default. -/
structure UIState where
  enable_convolution : Bool
  enable_compressor : Bool
  enable_chorus : Bool
  enable_distortion : Bool
  enable_gain : Bool
  enable_hp : Bool
  enable_ld : Bool
  enable_limiter : Bool
  enable_lp : Bool
  enable_phaser : Bool
  enable_reverb : Bool
  slider_compressor_threshold_db : Option ℚ
  slider_compressor_ratio : Option ℚ
  slider_compressor_attack_ms : Option ℚ
  slider_compressor_release_ms : Option ℚ
  slider_gain_db : Option ℚ
  slider_reverb_room_size : Option ℚ
  slider_reverb_damping : Option ℚ
  slider_reverb_wet_level : Option ℚ
  slider_reverb_dry_level : Option ℚ
  slider_reverb_width : Option ℚ
  slider_reverb_freeze_mode : Option ℚ
deriving DecidableEq

/-- `st.slider(label, lo, hi, default)`: the widget constrains the chosen
value to `[lo, hi]`; an untouched slider (`pos = none`) returns its default
value.  (Streamlit raises if the default lies outside the range; the value
actually returned always lies in the range, which clamping captures.) -/
def slider (lo hi default_value : ℚ) (pos : Option ℚ) : ℚ :=
  max lo (min hi (pos.getD default_value))

/-- The `Compressor(threshold_db=..., ratio=..., attack_ms=..., release_ms=...)`
object built from the four compressor sliders (lines 97-116). -/
def compressorEffect (lib : PedalboardDefaults) (ui : UIState) : Effect :=
  Effect.Compressor
    (slider (-24.0) 24.0 lib.compressor_threshold_db
      ui.slider_compressor_threshold_db)
    (slider 0.0 10.0 lib.compressor_ratio ui.slider_compressor_ratio)
    (slider 0.1 100.0 lib.compressor_attack_ms ui.slider_compressor_attack_ms)
    (slider 0.1 1000.0 lib.compressor_release_ms
      ui.slider_compressor_release_ms)

/-- The `Gain(gain_db=...)` object built from the gain slider (lines 130-131). -/
def gainEffect (lib : PedalboardDefaults) (ui : UIState) : Effect :=
  Effect.Gain (slider (-24.0) 24.0 lib.gain_db ui.slider_gain_db)

/-- The `Reverb(room_size=..., ...)` object built from the six reverb
sliders (lines 160-183). -/
def reverbEffect (lib : PedalboardDefaults) (ui : UIState) : Effect :=
  Effect.Reverb
    (slider 0.0 1.0 lib.reverb_room_size ui.slider_reverb_room_size)
    (slider 0.0 1.0 lib.reverb_damping ui.slider_reverb_damping)
    (slider 0.0 1.0 lib.reverb_wet_level ui.slider_reverb_wet_level)
    (slider 0.0 1.0 lib.reverb_dry_level ui.slider_reverb_dry_level)
    (slider 0.0 1.0 lib.reverb_width ui.slider_reverb_width)
    (slider 0.0 1.0 lib.reverb_freeze_mode ui.slider_reverb_freeze_mode)

/-- Lines 88-183 of `app.py`: start from `Pedalboard([], ...)`'s empty
effect list and walk the eleven checkbox branches in source order.  The
branches for convolution, chorus, distortion, highpass, ladder, limiter,
lowpass and phaser only display a "Not yet implemented" warning and append
nothing; the compressor, gain and reverb branches read their sliders and
`board.append` one effect object. -/
def buildBoard (lib : PedalboardDefaults) (ui : UIState) : List Effect :=
  let board : List Effect := []
  -- if enable_convolution: st.warning("Not yet implemented"); pass
  let board := if ui.enable_convolution then board else board
  let board := if ui.enable_compressor then board ++ [compressorEffect lib ui]
    else board
  -- if enable_chorus: st.warning("Not yet implemented"); pass
  let board := if ui.enable_chorus then board else board
  -- if enable_distortion: st.warning("Not yet implemented"); pass
  let board := if ui.enable_distortion then board else board
  let board := if ui.enable_gain then board ++ [gainEffect lib ui] else board
  -- if enable_hp / enable_ld / enable_limiter / enable_lp / enable_phaser:
  -- st.warning("Not yet implemented"); pass
  let board := if ui.enable_hp then board else board
  let board := if ui.enable_ld then board else board
  let board := if ui.enable_limiter then board else board
  let board := if ui.enable_lp then board else board
  let board := if ui.enable_phaser then board else board
  let board := if ui.enable_reverb then board ++ [reverbEffect lib ui]
    else board
  board

/-- `ui` with the eight unimplemented-effect checkboxes set as given. -/
def UIState.setUnimplemented (ui : UIState)
    (conv chor dist hp ld lim lp ph : Bool) : UIState :=
  { ui with
    enable_convolution := conv
    enable_chorus := chor
    enable_distortion := dist
    enable_hp := hp
    enable_ld := ld
    enable_limiter := lim
    enable_lp := lp
    enable_phaser := ph }

/-- The parameters of an effect object lie within the declared bounds of
the sliders that produced them (lines 97-107, 130, 160-172). -/
def Effect.paramsInBounds : Effect → Bool
  | .Compressor t r a rel =>
      decide ((-24.0 ≤ t ∧ t ≤ 24.0) ∧ (0.0 ≤ r ∧ r ≤ 10.0) ∧
        (0.1 ≤ a ∧ a ≤ 100.0) ∧ (0.1 ≤ rel ∧ rel ≤ 1000.0))
  | .Gain g => decide (-24.0 ≤ g ∧ g ≤ 24.0)
  | .Reverb rs d w dr wi f =>
      decide ((0.0 ≤ rs ∧ rs ≤ 1.0) ∧ (0.0 ≤ d ∧ d ≤ 1.0) ∧
        (0.0 ≤ w ∧ w ≤ 1.0) ∧ (0.0 ≤ dr ∧ dr ≤ 1.0) ∧
        (0.0 ≤ wi ∧ wi ≤ 1.0) ∧ (0.0 ≤ f ∧ f ≤ 1.0))

/-- The parameters of an effect object are exactly the library's
constructor defaults. -/
def Effect.usesDefaults (lib : PedalboardDefaults) : Effect → Bool
  | .Compressor t r a rel =>
      decide (t = lib.compressor_threshold_db ∧ r = lib.compressor_ratio ∧
        a = lib.compressor_attack_ms ∧ rel = lib.compressor_release_ms)
  | .Gain g => decide (g = lib.gain_db)
  | .Reverb rs d w dr wi f =>
      decide (rs = lib.reverb_room_size ∧ d = lib.reverb_damping ∧
        w = lib.reverb_wet_level ∧ dr = lib.reverb_dry_level ∧
        wi = lib.reverb_width ∧ f = lib.reverb_freeze_mode)

/-- The library's constructor defaults lie within the ranges of the sliders
that display them (true of the real pedalboard defaults; Streamlit raises
at widget creation otherwise). -/
def defaultsInRange (lib : PedalboardDefaults) : Bool :=
  decide ((-24.0 ≤ lib.compressor_threshold_db ∧ lib.compressor_threshold_db ≤ 24.0) ∧
    (0.0 ≤ lib.compressor_ratio ∧ lib.compressor_ratio ≤ 10.0) ∧
    (0.1 ≤ lib.compressor_attack_ms ∧ lib.compressor_attack_ms ≤ 100.0) ∧
    (0.1 ≤ lib.compressor_release_ms ∧ lib.compressor_release_ms ≤ 1000.0) ∧
    (-24.0 ≤ lib.gain_db ∧ lib.gain_db ≤ 24.0) ∧
    (0.0 ≤ lib.reverb_room_size ∧ lib.reverb_room_size ≤ 1.0) ∧
    (0.0 ≤ lib.reverb_damping ∧ lib.reverb_damping ≤ 1.0) ∧
    (0.0 ≤ lib.reverb_wet_level ∧ lib.reverb_wet_level ≤ 1.0) ∧
    (0.0 ≤ lib.reverb_dry_level ∧ lib.reverb_dry_level ≤ 1.0) ∧
    (0.0 ≤ lib.reverb_width ∧ lib.reverb_width ≤ 1.0) ∧
    (0.0 ≤ lib.reverb_freeze_mode ∧ lib.reverb_freeze_mode ≤ 1.0))

/-- Every slider of `ui` is untouched (still showing its default value). -/
def UIState.slidersUntouched (ui : UIState) : Bool :=
  decide (ui.slider_compressor_threshold_db = none ∧
    ui.slider_compressor_ratio = none ∧
    ui.slider_compressor_attack_ms = none ∧
    ui.slider_compressor_release_ms = none ∧
    ui.slider_gain_db = none ∧
    ui.slider_reverb_room_size = none ∧
    ui.slider_reverb_damping = none ∧
    ui.slider_reverb_wet_level = none ∧
    ui.slider_reverb_dry_level = none ∧
    ui.slider_reverb_width = none ∧
    ui.slider_reverb_freeze_mode = none)

/-- `np.max` raises `ValueError` on an empty array; on a nonempty one it is
the maximum element. -/
def npMax (l : List ℚ) : Option ℚ :=
  match l with
  | [] => none
  | x :: xs => some (xs.foldl max x)

/-- NumPy float division of one element: dividing by zero does not raise
but yields a non-finite value (`nan`/`inf`), which ℚ cannot represent; the
non-finite outcome is modelled as `none`. -/
def npDiv (a b : ℚ) : Option ℚ :=
  if b = 0 then none else some (a / b)

/-- Elementwise NumPy division of an array by a scalar; `none` as soon as
one element has no finite quotient. -/
def npDivArray : List ℚ → ℚ → Option (List ℚ)
  | [], _ => some []
  | x :: xs, m => do
    let q ← npDiv x m
    let qs ← npDivArray xs m
    pure (q :: qs)

/-- The C-style cast `np.int16` applied to a float value in range:
truncation toward zero. -/
def truncToInt (q : ℚ) : ℤ :=
  if q < 0 then ⌈q⌉ else ⌊q⌋

/-- `_normalize_16_bit` (lines 24-29):
`np.int16(audio_data / np.max(np.abs(audio_data)) * 32767 * 0.9)`.
`none` when the computation has no well-defined result (empty input, or a
division by a zero maximum producing non-finite values). -/
def normalize_16_bit (audio_data : AudioBuffer) : Option (List ℤ) := do
  let m ← npMax (audio_data.map (fun x => |x|))
  let scaled ← npDivArray audio_data m
  pure (scaled.map (fun q => truncToInt (q * 32767 * 0.9)))

/-- Payload of a WAV stream produced by `scipy.io.wavfile.write`: float
samples when the buffer is written as-is, 16-bit integer samples after
`_normalize_16_bit`. -/
inductive WavData where
  | floatSamples (samples : AudioBuffer)
  | int16Samples (samples : List ℤ)
deriving DecidableEq

/-- An in-memory WAV stream (`io.BytesIO` written by `wavfile.write`). -/
structure WavStream where
  sample_rate : ℕ
  data : WavData
deriving DecidableEq

/-- `_audio_to_virtualfile` (lines 32-40): optionally normalize, then
`wavfile.write(virtualfile, 44100, audio_data)`.  An error from the
normalization (see `normalize_16_bit`) propagates. -/
def audio_to_virtualfile (audio_data : AudioBuffer) (normalize_16 : Bool) :
    Except String WavStream :=
  if normalize_16 then
    match normalize_16_bit audio_data with
    | none => .error "invalid value encountered in _normalize_16_bit"
    | some samples => .ok ⟨44100, .int16Samples samples⟩
  else .ok ⟨44100, .floatSamples audio_data⟩

/-- The Python default of `_audio_to_virtualfile`'s `normalize_16`
parameter; every call site in `main` leaves it at this default. -/
def normalize_16_default : Bool := false

/-- `librosa.load(source, sr=44100)`: decode (which can raise on a bad
file) and resample to 44100 Hz, returning `(audio, 44100)`.  The decoded
sample content is abstract, supplied as the `Except` argument. -/
def librosa_load (decoded : Except String AudioBuffer) :
    Except String (AudioBuffer × ℕ) :=
  match decoded with
  | .error e => .error e
  | .ok a => .ok (a, 44100)

/-- Lines 73-77: if no file is uploaded, load the bundled sample clip
(`librosa.example("vibeace", hq=True)`); otherwise load the uploaded file.
`uploaded = none` models `uploaded_file is None`; the `Except` values are
the decode outcomes of the respective sources. -/
def loadAudio (uploaded : Option (Except String AudioBuffer))
    (sample_clip : Except String AudioBuffer) :
    Except String (AudioBuffer × ℕ) :=
  match uploaded with
  | none => librosa_load sample_clip
  | some f => librosa_load f

/-- The accepted-extension list of the file uploader
(`c1.file_uploader("Upload wav file", type=["wav"])`, line 73). -/
def uploader_accepted_types : List String := ["wav"]

/-- Everything `main` displays or exports, in source order: the pre-effect
waveform plot and audio player, the board shown in the debug sidebar and
passed to render, the post-effect waveform plot, audio player and download
button (with its file name and MIME type). -/
structure AppOutput where
  loadedAudio : AudioBuffer
  loadedPlayer : WavStream
  board : Pedalboard
  effected : AudioBuffer
  effectedPlayer : WavStream
  downloadData : WavStream
  downloadFileName : String
  downloadMime : String
deriving DecidableEq

/-- The `main` function of `app.py` (lines 49-201); named `appMain` because
Lean reserves the top-level name `main` for executables.  Reads the
checkbox/slider state `ui`, loads the audio (uploaded file, or the bundled
sample clip when none), plots and plays the loaded buffer, assembles
`Pedalboard([], sample_rate=sample_rate)` plus the enabled effects, renders
`effected = board(audio)` through the abstract external engine `render`,
and plots/plays/offers the result for download as `output.wav` with MIME
`audio/wave`.  Any error (bad file, render exception) propagates and
aborts the remaining steps. -/
def appMain (lib : PedalboardDefaults)
    (render : Pedalboard → AudioBuffer → Except String AudioBuffer)
    (ui : UIState) (uploaded : Option (Except String AudioBuffer))
    (sample_clip : Except String AudioBuffer) : Except String AppOutput :=
  match loadAudio uploaded sample_clip with
  | .error e => .error e
  | .ok (audio, sample_rate) =>
    match audio_to_virtualfile audio normalize_16_default with
    | .error e => .error e
    | .ok loadedPlayer =>
      let board : Pedalboard := ⟨sample_rate, buildBoard lib ui⟩
      match render board audio with
      | .error e => .error e
      | .ok effected =>
        match audio_to_virtualfile effected normalize_16_default with
        | .error e => .error e
        | .ok effectedPlayer =>
          match audio_to_virtualfile effected normalize_16_default with
          | .error e => .error e
          | .ok downloadData =>
            .ok { loadedAudio := audio
                  loadedPlayer := loadedPlayer
                  board := board
                  effected := effected
                  effectedPlayer := effectedPlayer
                  downloadData := downloadData
                  downloadFileName := "output.wav"
                  downloadMime := "audio/wave" }

/-- A concrete defaults record used to exercise the theorems on explicit
inputs (the documented pedalboard constructor defaults). -/
def sampleDefaults : PedalboardDefaults :=
  ⟨0, 1, 1, 100, 1, 1/2, 1/2, 33/100, 2/5, 1, 0⟩

/-- A concrete UI state: every checkbox enabled, every slider untouched. -/
def sampleUIState : UIState :=
  ⟨true, true, true, true, true, true, true, true, true, true, true,
   none, none, none, none, none, none, none, none, none, none, none⟩

/-- A pure stand-in for the external render engine: the identity. -/
def idRender : Pedalboard → AudioBuffer → Except String AudioBuffer :=
  fun _ a => Except.ok a

/-- A render engine stand-in that always raises. -/
def failRender : Pedalboard → AudioBuffer → Except String AudioBuffer :=
  fun _ _ => Except.error "render failed"

/-- The output record of `appMain` on the concrete inputs used to exercise
the theorems: defaults `sampleDefaults`, UI `sampleUIState`, no upload,
sample clip `[1]`, identity render. -/
def sampleOutput : AppOutput :=
  { loadedAudio := [1]
    loadedPlayer := ⟨44100, WavData.floatSamples [1]⟩
    board := ⟨44100, buildBoard sampleDefaults sampleUIState⟩
    effected := [1]
    effectedPlayer := ⟨44100, WavData.floatSamples [1]⟩
    downloadData := ⟨44100, WavData.floatSamples [1]⟩
    downloadFileName := "output.wav"
    downloadMime := "audio/wave" }

/-- The slider never returns less than its lower bound. -/
theorem le_slider (lo hi d : ℚ) (p : Option ℚ) : lo ≤ slider lo hi d p :=
  le_max_left _ _

/-- The slider never returns more than its upper bound (for a nonempty
range). -/
theorem slider_le (lo hi d : ℚ) (p : Option ℚ) (h : lo ≤ hi) :
    slider lo hi d p ≤ hi :=
  max_le h (min_le_left _ _)

/-- An untouched slider returns its default value when that default lies
in the declared range. -/
theorem slider_none_eq (lo hi d : ℚ) (h1 : lo ≤ d) (h2 : d ≤ hi) :
    slider lo hi d none = d := by
  simp only [slider, Option.getD_none]
  rw [min_eq_right h2, max_eq_right h1]

/-- The assembled chain is the concatenation of the three possibly-present
effects, in source order. -/
theorem buildBoard_eq (lib : PedalboardDefaults) (ui : UIState) :
    buildBoard lib ui
      = (if ui.enable_compressor then [compressorEffect lib ui] else [])
        ++ (if ui.enable_gain then [gainEffect lib ui] else [])
        ++ (if ui.enable_reverb then [reverbEffect lib ui] else []) := by
  cases hc : ui.enable_compressor <;> cases hg : ui.enable_gain <;>
    cases hr : ui.enable_reverb <;>
  simp [buildBoard, hc, hg, hr, ite_self]

/-- Any member of the assembled chain is one of the three effect objects. -/
theorem mem_buildBoard (lib : PedalboardDefaults) (ui : UIState) (e : Effect)
    (he : e ∈ buildBoard lib ui) :
    e = compressorEffect lib ui ∨ e = gainEffect lib ui
      ∨ e = reverbEffect lib ui := by
  rw [buildBoard_eq] at he
  simp only [List.mem_append] at he
  rcases he with (h | h) | h
  · split at h <;> simp_all
  · split at h <;> simp_all
  · split at h <;> simp_all

/-- A successful load always reports sample rate 44100. -/
theorem loadAudio_ok_sr (uploaded : Option (Except String AudioBuffer))
    (sample_clip : Except String AudioBuffer) (audio : AudioBuffer) (sr : ℕ)
    (h : loadAudio uploaded sample_clip = Except.ok (audio, sr)) :
    sr = 44100 := by
  cases uploaded with
  | none => cases sample_clip <;> simp_all [loadAudio, librosa_load]
  | some f => cases f <;> simp_all [loadAudio, librosa_load]

/-- A successful run of `appMain`, with every output field evaluated. -/
theorem appMain_ok (lib : PedalboardDefaults)
    (render : Pedalboard → AudioBuffer → Except String AudioBuffer)
    (ui : UIState) (uploaded : Option (Except String AudioBuffer))
    (sample_clip : Except String AudioBuffer)
    (audio effected : AudioBuffer) (sr : ℕ)
    (hl : loadAudio uploaded sample_clip = Except.ok (audio, sr))
    (hr : render ⟨sr, buildBoard lib ui⟩ audio = Except.ok effected) :
    appMain lib render ui uploaded sample_clip
      = Except.ok { loadedAudio := audio
                    loadedPlayer := ⟨44100, WavData.floatSamples audio⟩
                    board := ⟨sr, buildBoard lib ui⟩
                    effected := effected
                    effectedPlayer := ⟨44100, WavData.floatSamples effected⟩
                    downloadData := ⟨44100, WavData.floatSamples effected⟩
                    downloadFileName := "output.wav"
                    downloadMime := "audio/wave" } := by
  simp [appMain, hl, hr, audio_to_virtualfile, normalize_16_default]

/-- A load error aborts `appMain` with the same error and no output. -/
theorem appMain_load_error (lib : PedalboardDefaults)
    (render : Pedalboard → AudioBuffer → Except String AudioBuffer)
    (ui : UIState) (uploaded : Option (Except String AudioBuffer))
    (sample_clip : Except String AudioBuffer) (e : String)
    (hl : loadAudio uploaded sample_clip = Except.error e) :
    appMain lib render ui uploaded sample_clip = Except.error e := by
  simp [appMain, hl]

/-- A render error aborts `appMain` with the same error and no output. -/
theorem appMain_render_error (lib : PedalboardDefaults)
    (render : Pedalboard → AudioBuffer → Except String AudioBuffer)
    (ui : UIState) (uploaded : Option (Except String AudioBuffer))
    (sample_clip : Except String AudioBuffer)
    (audio : AudioBuffer) (sr : ℕ) (e : String)
    (hl : loadAudio uploaded sample_clip = Except.ok (audio, sr))
    (hr : render ⟨sr, buildBoard lib ui⟩ audio = Except.error e) :
    appMain lib render ui uploaded sample_clip = Except.error e := by
  simp [appMain, hl, hr, audio_to_virtualfile, normalize_16_default]

/-- Inversion: a successful `appMain` run determines every output field. -/
theorem appMain_ok_inv (lib : PedalboardDefaults)
    (render : Pedalboard → AudioBuffer → Except String AudioBuffer)
    (ui : UIState) (uploaded : Option (Except String AudioBuffer))
    (sample_clip : Except String AudioBuffer) (out : AppOutput)
    (h : appMain lib render ui uploaded sample_clip = Except.ok out) :
    ∃ audio effected,
      loadAudio uploaded sample_clip = Except.ok (audio, 44100) ∧
      render ⟨44100, buildBoard lib ui⟩ audio = Except.ok effected ∧
      out = { loadedAudio := audio
              loadedPlayer := ⟨44100, WavData.floatSamples audio⟩
              board := ⟨44100, buildBoard lib ui⟩
              effected := effected
              effectedPlayer := ⟨44100, WavData.floatSamples effected⟩
              downloadData := ⟨44100, WavData.floatSamples effected⟩
              downloadFileName := "output.wav"
              downloadMime := "audio/wave" } := by
  cases hl : loadAudio uploaded sample_clip with
  | error e => rw [appMain_load_error lib render ui uploaded sample_clip e hl] at h; exact absurd h (by simp)
  | ok p =>
    obtain ⟨audio, sr⟩ := p
    obtain rfl : sr = 44100 := loadAudio_ok_sr uploaded sample_clip audio sr hl
    cases hr : render ⟨44100, buildBoard lib ui⟩ audio with
    | error e =>
      rw [appMain_render_error lib render ui uploaded sample_clip audio 44100 e hl hr] at h
      exact absurd h (by simp)
    | ok effected =>
      refine ⟨audio, effected, rfl, hr, ?_⟩
      rw [appMain_ok lib render ui uploaded sample_clip audio effected 44100 hl hr] at h
      injection h with h2
      exact h2.symm

/-- **C1.** For every assignment of the eleven sidebar checkboxes (and any
slider state), the assembled chain holds exactly one Compressor iff the
compressor checkbox is enabled, exactly one Gain iff the gain checkbox is
enabled, exactly one Reverb iff the reverb checkbox is enabled, and no
other effects; present effects appear in the fixed order Compressor, Gain,
Reverb (the kind sequence is a sublist of `[compressor, gain, reverb]`). -/
theorem effects_chain_composition (lib : PedalboardDefaults) (ui : UIState) :
    countKind .compressor (buildBoard lib ui)
        = (if ui.enable_compressor then 1 else 0) ∧
    countKind .gain (buildBoard lib ui)
        = (if ui.enable_gain then 1 else 0) ∧
    countKind .reverb (buildBoard lib ui)
        = (if ui.enable_reverb then 1 else 0) ∧
    (buildBoard lib ui).length
        = countKind .compressor (buildBoard lib ui)
          + countKind .gain (buildBoard lib ui)
          + countKind .reverb (buildBoard lib ui) ∧
    List.Sublist ((buildBoard lib ui).map Effect.kind)
      [EffectKind.compressor, EffectKind.gain, EffectKind.reverb] := by
  cases hc : ui.enable_compressor <;> cases hg : ui.enable_gain <;>
    cases hr : ui.enable_reverb <;>
  simp [buildBoard, countKind, Effect.kind, compressorEffect, gainEffect,
    reverbEffect, hc, hg, hr, ite_self, List.Sublist.cons,
    List.cons_sublist_cons, List.nil_sublist]

/-- **C2.** The eight declared-but-unimplemented effects (convolution,
chorus, distortion, highpass filter, ladder filter, limiter, lowpass
filter, phaser) append nothing: for every assignment of their checkboxes
the assembled chain equals the chain with all eight disabled. -/
theorem unimplemented_effects_append_nothing (lib : PedalboardDefaults)
    (ui : UIState) (conv chor dist hp ld lim lp ph : Bool) :
    buildBoard lib (ui.setUnimplemented conv chor dist hp ld lim lp ph)
      = buildBoard lib
          (ui.setUnimplemented false false false false false false false false) := by
  simp [buildBoard, UIState.setUnimplemented, ite_self, compressorEffect,
    gainEffect, reverbEffect]

/-- **C3.** The sample rate is consistent across load and render: every
successful load returns a buffer resampled to 44100 Hz, the `Pedalboard`
is constructed with that same rate, and every WAV stream written for
playback or download carries 44100 Hz. -/
theorem sample_rate_consistent :
    (∀ (uploaded : Option (Except String AudioBuffer))
       (sample_clip : Except String AudioBuffer)
       (audio : AudioBuffer) (sr : ℕ),
       loadAudio uploaded sample_clip = Except.ok (audio, sr) → sr = 44100) ∧
    (∀ (lib : PedalboardDefaults)
       (render : Pedalboard → AudioBuffer → Except String AudioBuffer)
       (ui : UIState) (uploaded : Option (Except String AudioBuffer))
       (sample_clip : Except String AudioBuffer) (out : AppOutput),
       appMain lib render ui uploaded sample_clip = Except.ok out →
         out.board.sample_rate = 44100 ∧
         out.loadedPlayer.sample_rate = 44100 ∧
         out.effectedPlayer.sample_rate = 44100 ∧
         out.downloadData.sample_rate = 44100) := by
  constructor
  · exact loadAudio_ok_sr
  · intro lib render ui uploaded sample_clip out h
    obtain ⟨audio, effected, hl, hr, rfl⟩ :=
      appMain_ok_inv lib render ui uploaded sample_clip out h
    exact ⟨rfl, rfl, rfl, rfl⟩

/-- Closed instance of `sample_rate_consistent` at concrete inputs. -/
theorem sample_rate_consistent_witness :
    ((44100 : ℕ) = 44100) ∧
    (sampleOutput.board.sample_rate = 44100 ∧
     sampleOutput.loadedPlayer.sample_rate = 44100 ∧
     sampleOutput.effectedPlayer.sample_rate = 44100 ∧
     sampleOutput.downloadData.sample_rate = 44100) :=
  ⟨sample_rate_consistent.1 none (Except.ok [1]) [1] 44100 rfl,
   sample_rate_consistent.2 sampleDefaults idRender sampleUIState none
     (Except.ok [1]) sampleOutput rfl⟩

/-- **C4.** For every UI state and successfully loaded buffer, the output
that is plotted, played and offered for download is the render function of
the assembled chain applied exactly once to the loaded buffer (the
conclusion holds for every pure render function), following read UI → load
→ build chain → render → display/export; the loaded pre-effect buffer is
returned unmodified alongside. -/
theorem render_applied_once_to_loaded_buffer (lib : PedalboardDefaults)
    (renderPure : Pedalboard → AudioBuffer → AudioBuffer) (ui : UIState)
    (uploaded : Option (Except String AudioBuffer))
    (sample_clip : Except String AudioBuffer)
    (audio : AudioBuffer) (sr : ℕ)
    (h : loadAudio uploaded sample_clip = Except.ok (audio, sr)) :
    appMain lib (fun b a => Except.ok (renderPure b a)) ui uploaded sample_clip
      = Except.ok
          { loadedAudio := audio
            loadedPlayer := ⟨44100, WavData.floatSamples audio⟩
            board := ⟨sr, buildBoard lib ui⟩
            effected := renderPure ⟨sr, buildBoard lib ui⟩ audio
            effectedPlayer :=
              ⟨44100, WavData.floatSamples (renderPure ⟨sr, buildBoard lib ui⟩ audio)⟩
            downloadData :=
              ⟨44100, WavData.floatSamples (renderPure ⟨sr, buildBoard lib ui⟩ audio)⟩
            downloadFileName := "output.wav"
            downloadMime := "audio/wave" } :=
  appMain_ok lib (fun b a => Except.ok (renderPure b a)) ui uploaded
    sample_clip audio (renderPure ⟨sr, buildBoard lib ui⟩ audio) sr h rfl

/-- Closed instance of `render_applied_once_to_loaded_buffer` at concrete
inputs (identity render engine). -/
theorem render_applied_once_to_loaded_buffer_witness :
    appMain sampleDefaults idRender sampleUIState none (Except.ok [1])
      = Except.ok sampleOutput :=
  render_applied_once_to_loaded_buffer sampleDefaults (fun _ a => a)
    sampleUIState none (Except.ok [1]) [1] 44100 rfl

/-- **C5.** When no file is uploaded the bundled sample clip is loaded;
when a file is uploaded that file is loaded instead; and the rest of the
pipeline depends only on the loaded result, so it treats both sources
identically. -/
theorem sample_clip_fallback :
    (∀ sample_clip : Except String AudioBuffer,
       loadAudio none sample_clip = librosa_load sample_clip) ∧
    (∀ f sample_clip : Except String AudioBuffer,
       loadAudio (some f) sample_clip = librosa_load f) ∧
    (∀ (lib : PedalboardDefaults)
       (render : Pedalboard → AudioBuffer → Except String AudioBuffer)
       (ui : UIState) (u₁ u₂ : Option (Except String AudioBuffer))
       (c₁ c₂ : Except String AudioBuffer),
       loadAudio u₁ c₁ = loadAudio u₂ c₂ →
         appMain lib render ui u₁ c₁ = appMain lib render ui u₂ c₂) := by
  refine ⟨fun _ => rfl, fun _ _ => rfl, ?_⟩
  intro lib render ui u₁ u₂ c₁ c₂ h
  unfold appMain
  rw [h]

/-- Closed instance of `sample_clip_fallback` at concrete inputs. -/
theorem sample_clip_fallback_witness :
    loadAudio none (Except.ok [1]) = librosa_load (Except.ok [1]) ∧
    appMain sampleDefaults idRender sampleUIState none (Except.ok [1])
      = appMain sampleDefaults idRender sampleUIState
          (some (Except.ok [1])) (Except.ok [2]) :=
  ⟨sample_clip_fallback.1 (Except.ok [1]),
   sample_clip_fallback.2.2 sampleDefaults idRender sampleUIState none
     (some (Except.ok [1])) (Except.ok [1]) (Except.ok [2]) rfl⟩

/-- **C7.** The script installs no exception handling of its own: an error
raised while loading the audio, or by the external render call, propagates
out of `main` unchanged, and no output record (no partial output past the
failure point) is produced. -/
theorem uncaught_errors_propagate (lib : PedalboardDefaults)
    (render : Pedalboard → AudioBuffer → Except String AudioBuffer)
    (ui : UIState) (uploaded : Option (Except String AudioBuffer))
    (sample_clip : Except String AudioBuffer) :
    (∀ e, loadAudio uploaded sample_clip = Except.error e →
       appMain lib render ui uploaded sample_clip = Except.error e) ∧
    (∀ (audio : AudioBuffer) (sr : ℕ) e,
       loadAudio uploaded sample_clip = Except.ok (audio, sr) →
       render ⟨sr, buildBoard lib ui⟩ audio = Except.error e →
       appMain lib render ui uploaded sample_clip = Except.error e) :=
  ⟨fun e hl => appMain_load_error lib render ui uploaded sample_clip e hl,
   fun audio sr e hl hr =>
     appMain_render_error lib render ui uploaded sample_clip audio sr e hl hr⟩

/-- Closed instance of `uncaught_errors_propagate` at concrete inputs: a
bad uploaded file and a failing render engine. -/
theorem uncaught_errors_propagate_witness :
    appMain sampleDefaults idRender sampleUIState
        (some (Except.error "bad file")) (Except.ok [1])
      = Except.error "bad file" ∧
    appMain sampleDefaults failRender sampleUIState none (Except.ok [1])
      = Except.error "render failed" :=
  ⟨(uncaught_errors_propagate sampleDefaults idRender sampleUIState
      (some (Except.error "bad file")) (Except.ok [1])).1 "bad file" rfl,
   (uncaught_errors_propagate sampleDefaults failRender sampleUIState none
      (Except.ok [1])).2 [1] 44100 "render failed" rfl rfl⟩

/-- **C8.** The only audio format handled is WAV: the uploader accepts only
files of type "wav", and every stream written for playback or download is
a 44100 Hz WAV stream; the download is offered as "output.wav" with MIME
type "audio/wave". -/
theorem wav_only_interface :
    uploader_accepted_types = ["wav"] ∧
    ∀ (lib : PedalboardDefaults)
      (render : Pedalboard → AudioBuffer → Except String AudioBuffer)
      (ui : UIState) (uploaded : Option (Except String AudioBuffer))
      (sample_clip : Except String AudioBuffer) (out : AppOutput),
      appMain lib render ui uploaded sample_clip = Except.ok out →
        out.downloadFileName = "output.wav" ∧
        out.downloadMime = "audio/wave" ∧
        out.loadedPlayer.sample_rate = 44100 ∧
        out.effectedPlayer.sample_rate = 44100 ∧
        out.downloadData.sample_rate = 44100 := by
  refine ⟨rfl, ?_⟩
  intro lib render ui uploaded sample_clip out h
  obtain ⟨audio, effected, hl, hr, rfl⟩ :=
    appMain_ok_inv lib render ui uploaded sample_clip out h
  exact ⟨rfl, rfl, rfl, rfl, rfl⟩

/-- Closed instance of `wav_only_interface` at concrete inputs. -/
theorem wav_only_interface_witness :
    sampleOutput.downloadFileName = "output.wav" ∧
    sampleOutput.downloadMime = "audio/wave" ∧
    sampleOutput.loadedPlayer.sample_rate = 44100 ∧
    sampleOutput.effectedPlayer.sample_rate = 44100 ∧
    sampleOutput.downloadData.sample_rate = 44100 :=
  wav_only_interface.2 sampleDefaults idRender sampleUIState none
    (Except.ok [1]) sampleOutput rfl

/-- **C10.** `normalize_16` defaults to `False`; with that default
`_audio_to_virtualfile` writes the input audio unchanged into a fresh
44100 Hz WAV stream; every call site in `main` uses the default, so
`_normalize_16_bit` is never invoked in a run of `main` and the played and
downloaded streams carry the unnormalized buffers. -/
theorem no_normalization_in_main :
    normalize_16_default = false ∧
    (∀ audio : AudioBuffer,
       audio_to_virtualfile audio normalize_16_default
         = Except.ok ⟨44100, WavData.floatSamples audio⟩) ∧
    (∀ (lib : PedalboardDefaults)
       (render : Pedalboard → AudioBuffer → Except String AudioBuffer)
       (ui : UIState) (uploaded : Option (Except String AudioBuffer))
       (sample_clip : Except String AudioBuffer) (out : AppOutput),
       appMain lib render ui uploaded sample_clip = Except.ok out →
         out.loadedPlayer = ⟨44100, WavData.floatSamples out.loadedAudio⟩ ∧
         out.effectedPlayer = ⟨44100, WavData.floatSamples out.effected⟩ ∧
         out.downloadData = ⟨44100, WavData.floatSamples out.effected⟩) := by
  refine ⟨rfl, fun _ => rfl, ?_⟩
  intro lib render ui uploaded sample_clip out h
  obtain ⟨audio, effected, hl, hr, rfl⟩ :=
    appMain_ok_inv lib render ui uploaded sample_clip out h
  exact ⟨rfl, rfl, rfl⟩

/-- Closed instance of `no_normalization_in_main` at concrete inputs. -/
theorem no_normalization_in_main_witness :
    sampleOutput.loadedPlayer
        = ⟨44100, WavData.floatSamples sampleOutput.loadedAudio⟩ ∧
    sampleOutput.effectedPlayer
        = ⟨44100, WavData.floatSamples sampleOutput.effected⟩ ∧
    sampleOutput.downloadData
        = ⟨44100, WavData.floatSamples sampleOutput.effected⟩ :=
  no_normalization_in_main.2.2 sampleDefaults idRender sampleUIState none
    (Except.ok [1]) sampleOutput rfl

/-- **C6.** Every effect parameter in the chain comes from a slider and
lies within that slider's declared bounds (`gain_db`, `threshold_db` in
[-24, 24]; ratio in [0, 10]; `attack_ms` in [0.1, 100]; `release_ms` in
[0.1, 1000]; the six reverb parameters in [0, 1]); and when every slider
is untouched each parameter equals the library's constructor default (the
slider defaults are exactly `Compressor().x`, `Gain().gain_db`,
`Reverb().x`). -/
theorem slider_params_bounds_and_defaults (lib : PedalboardDefaults)
    (ui : UIState) :
    (∀ e ∈ buildBoard lib ui, e.paramsInBounds = true) ∧
    (defaultsInRange lib = true → ui.slidersUntouched = true →
       ∀ e ∈ buildBoard lib ui, e.usesDefaults lib = true) := by
  constructor
  · intro e he
    rcases mem_buildBoard lib ui e he with rfl | rfl | rfl
    · simp only [compressorEffect, Effect.paramsInBounds, decide_eq_true_eq]
      refine ⟨⟨le_slider _ _ _ _, slider_le _ _ _ _ (by norm_num)⟩,
        ⟨le_slider _ _ _ _, slider_le _ _ _ _ (by norm_num)⟩,
        ⟨le_slider _ _ _ _, slider_le _ _ _ _ (by norm_num)⟩,
        ⟨le_slider _ _ _ _, slider_le _ _ _ _ (by norm_num)⟩⟩
    · simp only [gainEffect, Effect.paramsInBounds, decide_eq_true_eq]
      exact ⟨le_slider _ _ _ _, slider_le _ _ _ _ (by norm_num)⟩
    · simp only [reverbEffect, Effect.paramsInBounds, decide_eq_true_eq]
      refine ⟨⟨le_slider _ _ _ _, slider_le _ _ _ _ (by norm_num)⟩,
        ⟨le_slider _ _ _ _, slider_le _ _ _ _ (by norm_num)⟩,
        ⟨le_slider _ _ _ _, slider_le _ _ _ _ (by norm_num)⟩,
        ⟨le_slider _ _ _ _, slider_le _ _ _ _ (by norm_num)⟩,
        ⟨le_slider _ _ _ _, slider_le _ _ _ _ (by norm_num)⟩,
        ⟨le_slider _ _ _ _, slider_le _ _ _ _ (by norm_num)⟩⟩
  · intro hd hu e he
    simp only [defaultsInRange, decide_eq_true_eq] at hd
    simp only [UIState.slidersUntouched, decide_eq_true_eq] at hu
    obtain ⟨hd1, hd2, hd3, hd4, hd5, hd6, hd7, hd8, hd9, hd10, hd11⟩ := hd
    obtain ⟨hu1, hu2, hu3, hu4, hu5, hu6, hu7, hu8, hu9, hu10, hu11⟩ := hu
    rcases mem_buildBoard lib ui e he with rfl | rfl | rfl
    · simp only [compressorEffect, Effect.usesDefaults, decide_eq_true_eq]
      rw [hu1, hu2, hu3, hu4]
      exact ⟨slider_none_eq _ _ _ hd1.1 hd1.2, slider_none_eq _ _ _ hd2.1 hd2.2,
        slider_none_eq _ _ _ hd3.1 hd3.2, slider_none_eq _ _ _ hd4.1 hd4.2⟩
    · simp only [gainEffect, Effect.usesDefaults, decide_eq_true_eq]
      rw [hu5]
      exact slider_none_eq _ _ _ hd5.1 hd5.2
    · simp only [reverbEffect, Effect.usesDefaults, decide_eq_true_eq]
      rw [hu6, hu7, hu8, hu9, hu10, hu11]
      exact ⟨slider_none_eq _ _ _ hd6.1 hd6.2, slider_none_eq _ _ _ hd7.1 hd7.2,
        slider_none_eq _ _ _ hd8.1 hd8.2, slider_none_eq _ _ _ hd9.1 hd9.2,
        slider_none_eq _ _ _ hd10.1 hd10.2, slider_none_eq _ _ _ hd11.1 hd11.2⟩

unseal Rat.ofScientific Rat.mul Rat.inv in
/-- Closed instance of `slider_params_bounds_and_defaults` at concrete
inputs: the gain effect of the fully enabled, untouched UI. -/
theorem slider_params_bounds_and_defaults_witness :
    (gainEffect sampleDefaults sampleUIState).paramsInBounds = true ∧
    (gainEffect sampleDefaults sampleUIState).usesDefaults sampleDefaults
      = true :=
  ⟨(slider_params_bounds_and_defaults sampleDefaults sampleUIState).1
      (gainEffect sampleDefaults sampleUIState) (by decide),
   (slider_params_bounds_and_defaults sampleDefaults sampleUIState).2
      (by decide) (by decide)
      (gainEffect sampleDefaults sampleUIState) (by decide)⟩

/-- `foldl max` only grows its accumulator. -/
theorem le_foldl_max (xs : List ℚ) (a : ℚ) : a ≤ xs.foldl max a := by
  induction xs generalizing a with
  | nil => exact le_refl a
  | cons b xs ih =>
    rw [List.foldl_cons]
    exact le_trans (le_max_left a b) (ih (max a b))

/-- Every element of the list is bounded by its `foldl max`. -/
theorem mem_le_foldl_max (xs : List ℚ) (a y : ℚ) (hy : y ∈ xs) :
    y ≤ xs.foldl max a := by
  induction xs generalizing a with
  | nil => cases hy
  | cons b xs ih =>
    rw [List.foldl_cons]
    rcases List.mem_cons.mp hy with rfl | h
    · exact le_trans (le_max_right a y) (le_foldl_max xs (max a y))
    · exact ih (max a b) h

/-- `foldl max` over a constant list from a matching accumulator. -/
theorem foldl_max_const (xs : List ℚ) (a c : ℚ) (hxs : ∀ x ∈ xs, x = c)
    (ha : a = c) : xs.foldl max a = c := by
  induction xs generalizing a with
  | nil => simpa using ha
  | cons b xs ih =>
    rw [List.foldl_cons]
    refine ih (max a b) (fun x hx => hxs x (List.mem_cons_of_mem _ hx)) ?_
    rw [ha, hxs b (List.mem_cons_self _ _)]
    exact max_self c

/-- Dividing a nonempty array by zero yields no finite result. -/
theorem npDivArray_zero (xs : List ℚ) (x : ℚ) :
    npDivArray (x :: xs) 0 = none := by
  simp [npDivArray, npDiv]

/-- Dividing by a nonzero scalar divides every element. -/
theorem npDivArray_of_ne (xs : List ℚ) (m : ℚ) (hm : m ≠ 0) :
    npDivArray xs m = some (xs.map (fun x => x / m)) := by
  induction xs with
  | nil => simp [npDivArray]
  | cons b xs ih => simp [npDivArray, npDiv, hm, ih]

/-- Truncation toward zero of a value bounded by `0.9 * 32767` lands in the
signed 16-bit range. -/
theorem truncToInt_bounds (q : ℚ) (h : |q| ≤ 294903/10) :
    -32768 ≤ truncToInt q ∧ truncToInt q ≤ 32767 := by
  obtain ⟨h1, h2⟩ := abs_le.mp h
  unfold truncToInt
  split_ifs with hq
  · constructor
    · have hc : q ≤ (⌈q⌉ : ℚ) := Int.le_ceil q
      have : (-32768 : ℚ) ≤ (⌈q⌉ : ℚ) := by linarith
      exact_mod_cast this
    · have : ⌈q⌉ ≤ 0 := Int.ceil_le.mpr (by exact_mod_cast hq.le)
      omega
  · constructor
    · have : (0 : ℤ) ≤ ⌊q⌋ := Int.floor_nonneg.mpr (not_lt.mp hq)
      omega
    · have hf : (⌊q⌋ : ℚ) ≤ q := Int.floor_le q
      by_contra hcon
      push_neg at hcon
      have : (32768 : ℚ) ≤ (⌊q⌋ : ℚ) := by exact_mod_cast hcon
      linarith

/-- **C9.** On an all-zero (silent, nonempty) buffer `_normalize_16_bit`
divides by zero — the maximum absolute sample value is 0 and the division
is unguarded — so it has no well-defined 16-bit output; on every buffer
with at least one nonzero sample it produces an output whose values all
lie within the signed 16-bit range [-32768, 32767]. -/
theorem normalize_16_bit_div_by_zero_and_range (audio : AudioBuffer) :
    (audio ≠ [] → (∀ x ∈ audio, x = 0) → normalize_16_bit audio = none) ∧
    ((∃ x ∈ audio, x ≠ 0) →
      ∃ out, normalize_16_bit audio = some out ∧
        ∀ v ∈ out, -32768 ≤ v ∧ v ≤ 32767) := by
  constructor
  · intro hne hz
    obtain ⟨a, l, rfl⟩ := List.exists_cons_of_ne_nil hne
    have hfold : (l.map (fun x => |x|)).foldl max |a| = 0 := by
      refine foldl_max_const _ _ _ ?_ ?_
      · intro x hx
        obtain ⟨y, hy, rfl⟩ := List.mem_map.mp hx
        rw [hz y (List.mem_cons_of_mem _ hy), abs_zero]
      · rw [hz a (List.mem_cons_self _ _), abs_zero]
    simp [normalize_16_bit, npMax, hfold, npDivArray_zero]
  · rintro ⟨x, hx, hxne⟩
    obtain ⟨a, l, rfl⟩ : ∃ a l, audio = a :: l := by
      cases audio with
      | nil => cases hx
      | cons a l => exact ⟨a, l, rfl⟩
    set m := (l.map (fun y => |y|)).foldl max |a| with hm_def
    have habs : ∀ y ∈ a :: l, |y| ≤ m := by
      intro y hy
      rcases List.mem_cons.mp hy with rfl | hy2
      · exact le_foldl_max _ _
      · exact mem_le_foldl_max _ _ _ (List.mem_map_of_mem _ hy2)
    have hmpos : 0 < m := lt_of_lt_of_le (abs_pos.mpr hxne) (habs x hx)
    have hmne : m ≠ 0 := ne_of_gt hmpos
    refine ⟨((a :: l).map (fun y => y / m)).map
        (fun q => truncToInt (q * 32767 * 0.9)), ?_, ?_⟩
    · simp [normalize_16_bit, npMax, npDivArray_of_ne _ _ hmne, ← hm_def]
    · intro v hv
      obtain ⟨q, hq, rfl⟩ := List.mem_map.mp hv
      obtain ⟨y, hy, rfl⟩ := List.mem_map.mp hq
      apply truncToInt_bounds
      have h1 : |y / m| ≤ 1 := by
        rw [abs_div, abs_of_pos hmpos]
        exact div_le_one_of_le₀ (habs y hy) hmpos.le
      have h2 : |y / m * 32767 * 0.9| ≤ 1 * 32767 * 0.9 := by
        rw [abs_mul, abs_mul]
        have h9 : |(0.9 : ℚ)| = 0.9 := by norm_num
        have h327 : |(32767 : ℚ)| = 32767 := by norm_num
        rw [h9, h327]
        exact mul_le_mul_of_nonneg_right
          (mul_le_mul_of_nonneg_right h1 (by norm_num)) (by norm_num)
      calc |y / m * 32767 * 0.9| ≤ 1 * 32767 * 0.9 := h2
        _ ≤ 294903 / 10 := by norm_num

/-- Closed instance of `normalize_16_bit_div_by_zero_and_range` at concrete
inputs: the silent buffer `[0, 0]` and the buffer `[1]`. -/
theorem normalize_16_bit_div_by_zero_and_range_witness :
    normalize_16_bit [0, 0] = none ∧
    ∃ out, normalize_16_bit [1] = some out ∧
      ∀ v ∈ out, -32768 ≤ v ∧ v ≤ 32767 :=
  ⟨(normalize_16_bit_div_by_zero_and_range [0, 0]).1 (by decide) (by decide),
   (normalize_16_bit_div_by_zero_and_range [1]).2 ⟨1, by decide, by decide⟩⟩
